import Mathlib

/-!
Shallow embedding of the service supervision engine of the CloudFlow
("云流") operating-system management suite, taken from
`src/system-services/service-manager/service_manager.{h,cpp}` (the first
of the two near-identical variants in that file; the Linux `#else`
branches of the platform conditionals).  OS interactions (fork, kill,
waitpid, clocks, resource sampling, the config-file collaborator) are
modelled by explicit environment records passed to each operation, and
callback invocations, sleeps and thread joins are recorded in an event
trace.  The `ServiceStatus` struct declaration in `service_manager.h` is
cut off in the provided sources; its field set is reconstructed from the
aggregate initializers and the field accesses in `service_manager.cpp`
(`state`, `pid`, `start_time`, `last_activity`, `restart_count`,
`last_error`, `memory_usage`, `cpu_usage`, plus `uptime`, which
`Service::stop` assigns).  Timestamps are abstract `Nat` ticks and the
`double cpu_usage` sample is carried as the abstract sampled value.
-/

namespace CloudFlow.System

/-- Service lifecycle states, mirroring `enum class ServiceState`. -/
inductive ServiceState where
  | Stopped
  | Starting
  | Running
  | Stopping
  | Failed
  | Unknown
deriving DecidableEq

/-- Service categories, mirroring `enum class ServiceType`. -/
inductive ServiceType where
  | System
  | Network
  | Storage
  | User
  | Application
deriving DecidableEq

/-- Startup priorities, mirroring `enum class ServicePriority`
(Critical = 0 starts first, Idle = 4 last). -/
inductive ServicePriority where
  | Critical
  | High
  | Normal
  | Low
  | Idle
deriving DecidableEq

/-- The `static_cast<int>` applied to `ServicePriority` by the
`startAllServices` comparator. -/
def ServicePriority.toInt : ServicePriority → Int
  | .Critical => 0
  | .High => 1
  | .Normal => 2
  | .Low => 3
  | .Idle => 4

/-- Mirror of `struct ServiceConfig` (field order as in the header and
the aggregate initializers of `createDefaultServices`).  `shutdown_timeout`
is the extra field read by `Service::stop`; the header text for it is cut
off in the sources. -/
structure ServiceConfig where
  name : String
  description : String
  type : ServiceType
  priority : ServicePriority
  executable_path : String
  args : List String
  dependencies : List String
  auto_start : Bool
  restart_delay : Nat
  max_restart_attempts : Nat
  working_directory : String
  environment : List (String × String)
  shutdown_timeout : Nat
deriving DecidableEq

/-- Value-initialized `ServiceConfig{}`, returned by
`getServiceConfig` for an unknown name. -/
def defaultServiceConfig : ServiceConfig :=
  { name := ""
    description := ""
    type := .System
    priority := .Critical
    executable_path := ""
    args := []
    dependencies := []
    auto_start := false
    restart_delay := 0
    max_restart_attempts := 0
    working_directory := ""
    environment := []
    shutdown_timeout := 0 }

/-- Mirror of `struct ServiceStatus` (see the header comment of this file
for how the field set is reconstructed). -/
structure ServiceStatus where
  state : ServiceState
  pid : Int
  start_time : Nat
  last_activity : Nat
  restart_count : Nat
  last_error : String
  memory_usage : Nat
  cpu_usage : Nat
  uptime : Nat
deriving DecidableEq

/-- The constructor initializer
`status_{ServiceState::Stopped, -1, {}, {}, 0, "", 0, 0.0}`. -/
def initialServiceStatus : ServiceStatus :=
  { state := .Stopped
    pid := -1
    start_time := 0
    last_activity := 0
    restart_count := 0
    last_error := ""
    memory_usage := 0
    cpu_usage := 0
    uptime := 0 }

/-- The placeholder `ServiceStatus{ServiceState::Unknown, -1, {}, {}, 0,
"服务不存在", 0, 0.0}` returned by `getServiceStatus` for an unknown
name. -/
def notFoundServiceStatus : ServiceStatus :=
  { state := .Unknown
    pid := -1
    start_time := 0
    last_activity := 0
    restart_count := 0
    last_error := "服务不存在"
    memory_usage := 0
    cpu_usage := 0
    uptime := 0 }

/-- Observable actions of an execution: callback invocations, sleeps,
thread joins, and the manager-level issuing of a `start()` call (with
its boolean outcome). -/
inductive Event where
  | statusChange (oldS newS : ServiceState)
  | errorEmit (msg : String)
  | sleep (ms : Nat)
  | restartAttempt
  | monitorJoin
  | startIssued (name : String) (ok : Bool)
deriving DecidableEq

/-- Count of status-change callback invocations in a trace. -/
def statusChangeCount (ev : List Event) : Nat :=
  ev.countP fun e =>
    match e with
    | .statusChange _ _ => true
    | _ => false

/-- Count of automatic restart attempts (the Monitor invoking `start()`)
in a trace. -/
def restartAttempts (ev : List Event) : Nat :=
  ev.countP fun e =>
    match e with
    | .restartAttempt => true
    | _ => false

/-- The names to which the Orchestrator issued `start()`, in issue
order. -/
def issueTrace (ev : List Event) : List String :=
  ev.filterMap fun e =>
    match e with
    | .startIssued n _ => some n
    | _ => none

/-- Count of issued `start()` calls that returned failure. -/
def issueFailures (ev : List Event) : Nat :=
  ev.countP fun e =>
    match e with
    | .startIssued _ false => true
    | _ => false

/-- One `Service` object: its configuration, mutable status, the
`monitoring_thread_running_` flag, and whether the status-change/error
callbacks have been installed (done by `registerService`). -/
structure ServiceObj where
  config : ServiceConfig
  status : ServiceStatus
  monRunning : Bool
  hasStatusCb : Bool
  hasErrorCb : Bool
deriving DecidableEq

/-- The `Service` constructor. -/
def mkService (cfg : ServiceConfig) : ServiceObj :=
  { config := cfg
    status := initialServiceStatus
    monRunning := false
    hasStatusCb := false
    hasErrorCb := false }

/-- Outcome of the OS interactions during one `start()` call: whether
`fork()` succeeded, the child pid, whether `kill(pid, 0) == 0` after the
100 ms grace sleep, and the `system_clock::now()` reading. -/
structure StartEnv where
  forkOk : Bool
  childPid : Int
  aliveAfterGrace : Bool
  now : Nat
deriving DecidableEq

/-- Outcome of the OS interactions during one `stop()` call: whether
`kill(pid, SIGTERM)` succeeded, the `waitpid(..., WNOHANG)` result
(`-1` error, `0` still running, otherwise reaped), and whether
`kill(pid, SIGKILL)` succeeded. -/
structure StopEnv where
  sigtermOk : Bool
  waitpidRes : Int
  sigkillOk : Bool
deriving DecidableEq

/-- Result of a `Service` call: the boolean return value, the mutated
object, and the trace of observable actions. -/
structure CallResult where
  ok : Bool
  svc : ServiceObj
  events : List Event
deriving DecidableEq

/-- `Service::checkDependencies`.  The source body is
`// 这里应该检查依赖服务是否运行 // 简化实现：假设所有依赖都满足
return true;` — an unconditional `true`, ignoring the dependency set. -/
def Service.checkDependencies (_cfg : ServiceConfig) : Bool :=
  true

/-- `Service::startMonitoring`: no-op if the monitoring flag is already
set, otherwise sets it (and spawns the monitor thread). -/
def Service.startMonitoring (s : ServiceObj) : ServiceObj :=
  if s.monRunning then s else { s with monRunning := true }

/-- `Service::stopMonitoring`: clears the monitoring flag and joins the
thread if joinable. -/
def Service.stopMonitoringM (s : ServiceObj) : ServiceObj × List Event :=
  ({ s with monRunning := false }, if s.monRunning then [Event.monitorJoin] else [])

/-- `Service::start` (variant 1, Linux branch): no-op success when
Running/Starting; dependency check (a stub); transition to Starting with
`start_time` stamped and `last_error` cleared; fork; on fork success
record pid, set `last_activity`, increment `restart_count`, sleep 100 ms,
then probe liveness: alive ⇒ Running and start the Monitor, dead ⇒
Failed "进程启动后立即退出". -/
def Service.start (s : ServiceObj) (env : StartEnv) : CallResult :=
  if s.status.state = .Running ∨ s.status.state = .Starting then
    ⟨true, s, []⟩
  else if Service.checkDependencies s.config = false then
    ⟨false, { s with status :=
      { s.status with last_error := "依赖服务未就绪", state := .Failed } }, []⟩
  else
    let st1 : ServiceStatus :=
      { s.status with state := .Starting, start_time := env.now, last_error := "" }
    if env.forkOk = false then
      ⟨false, { s with status :=
        { st1 with last_error := "创建进程失败", state := .Failed } }, []⟩
    else
      let st2 : ServiceStatus :=
        { st1 with pid := env.childPid, last_activity := st1.start_time,
                   restart_count := st1.restart_count + 1 }
      if env.aliveAfterGrace then
        ⟨true, Service.startMonitoring { s with status := { st2 with state := .Running } },
          [Event.sleep 100]⟩
      else
        ⟨false, { s with status :=
          { st2 with last_error := "进程启动后立即退出", state := .Failed } },
          [Event.sleep 100]⟩

/-- Shared tail of `Service::stop`: set Stopped, clear pid, zero uptime,
stop the monitor, return true. -/
def Service.finishStop (s : ServiceObj) (st : ServiceStatus) (evs : List Event) : CallResult :=
  let st2 : ServiceStatus := { st with state := .Stopped, pid := -1, uptime := 0 }
  let p := Service.stopMonitoringM { s with status := st2 }
  ⟨true, p.1, evs ++ p.2⟩

/-- `Service::stop` (variant 1, Linux branch): no-op success when
Stopped/Stopping; direct transition to Stopped when no pid is recorded;
otherwise Stopping, then SIGTERM (failure ⇒ Failed, return false),
`waitpid` WNOHANG (error ⇒ Failed, return false; still running ⇒ sleep
the shutdown timeout then SIGKILL, whose failure ⇒ Failed, return
false), and finally Stopped with pid cleared and the monitor joined. -/
def Service.stop (s : ServiceObj) (env : StopEnv) : CallResult :=
  if s.status.state = .Stopped ∨ s.status.state = .Stopping then
    ⟨true, s, []⟩
  else if s.status.pid = -1 then
    ⟨true, { s with status := { s.status with state := .Stopped } }, []⟩
  else
    let st : ServiceStatus := { s.status with state := .Stopping }
    if env.sigtermOk = false then
      ⟨false, { s with status :=
        { st with last_error := "发送停止信号失败", state := .Failed } }, []⟩
    else if env.waitpidRes = -1 then
      ⟨false, { s with status :=
        { st with last_error := "等待进程退出失败", state := .Failed } }, []⟩
    else if env.waitpidRes = 0 then
      if env.sigkillOk = false then
        ⟨false, { s with status :=
          { st with last_error := "强制终止进程失败", state := .Failed } },
          [Event.sleep s.config.shutdown_timeout]⟩
      else
        Service.finishStop s st [Event.sleep s.config.shutdown_timeout]
    else
      Service.finishStop s st []

/-- `Service::restart`: `stop()`, then sleep the restart delay, then
`start()`; fails if either sub-step fails. -/
def Service.restart (s : ServiceObj) (se : StopEnv) (en : StartEnv) : CallResult :=
  let r := Service.stop s se
  if r.ok = false then
    ⟨false, r.svc, r.events⟩
  else
    let r2 := Service.start r.svc en
    ⟨r2.ok, r2.svc, r.events ++ Event.sleep s.config.restart_delay :: r2.events⟩

/-- `Service::updateStatus`: replaces the status block and fires the
status-change callback iff the state changed and a callback is set. -/
def Service.updateStatus (s : ServiceObj) (st : ServiceStatus) : ServiceObj × List Event :=
  let oldState := s.status.state
  let s2 := { s with status := st }
  if oldState ≠ st.state ∧ s.hasStatusCb then
    (s2, [Event.statusChange oldState st.state])
  else
    (s2, [])

/-- Outcome of the OS interactions during one cycle of the monitor loop:
the `kill(pid, 0)` liveness probe, the clock, the two `rand()` samples of
`updateResourceUsage`, and the environment for the recursive `start()`
should an automatic restart be attempted. -/
structure MonitorEnv where
  alive : Bool
  now : Nat
  memSample : Nat
  cpuSample : Nat
  restartEnv : StartEnv
deriving DecidableEq

/-- One cycle of the `Service::startMonitoring` loop body (variant 1,
Linux branch).  Returns the mutated service, the trace, and whether the
loop continues.  A live process refreshes `last_activity` and the
resource samples and the loop sleeps 1 s and continues; a dead process
means unexpected exit: Failed, error recorded and emitted, then — only
while `restart_count < max_restart_attempts` — sleep the restart delay
and invoke `start()` once; in either case the loop `break`s. -/
def Service.monitorPoll (s : ServiceObj) (env : MonitorEnv) :
    ServiceObj × List Event × Bool :=
  if s.status.pid = -1 then
    (s, [Event.sleep 1000], true)
  else if env.alive = true then
    let st : ServiceStatus :=
      { s.status with last_activity := env.now,
                      memory_usage := 1024 + env.memSample % 4096,
                      cpu_usage := env.cpuSample % 100 }
    ({ s with status := st }, [Event.sleep 1000], true)
  else
    let st : ServiceStatus :=
      { s.status with state := .Failed, last_error := "进程意外退出" }
    let ev0 : List Event :=
      if s.hasErrorCb then [Event.errorEmit "进程意外退出"] else []
    if st.restart_count < s.config.max_restart_attempts then
      let r := Service.start { s with status := st } env.restartEnv
      (r.svc,
        ev0 ++ Event.sleep s.config.restart_delay :: Event.restartAttempt :: r.events,
        false)
    else
      ({ s with status := st }, ev0, false)

/-- The monitor loop, fuel-indexed: repeat `monitorPoll` while it asks to
continue. -/
def Service.monitorLoop : Nat → ServiceObj → (Nat → MonitorEnv) → ServiceObj × List Event
  | 0, s, _ => (s, [])
  | fuel + 1, s, envs =>
    let r := Service.monitorPoll s (envs 0)
    if r.2.2 = true then
      let rest := Service.monitorLoop fuel r.1 (fun n => envs (n + 1))
      (rest.1, r.2.1 ++ rest.2)
    else
      (r.1, r.2.1)

/-- Association-list lookup with string keys, modelling
`services_.find(name)` on the `unordered_map`. -/
def lookupSvc : List (String × ServiceObj) → String → Option ServiceObj
  | [], _ => none
  | p :: rest, name => if p.1 = name then some p.2 else lookupSvc rest name

/-- Replace the record stored under `name` (no-op when absent),
modelling an in-place mutation of `it->second`. -/
def updateSvc (l : List (String × ServiceObj)) (name : String) (sv : ServiceObj) :
    List (String × ServiceObj) :=
  l.map fun p => if p.1 = name then (p.1, sv) else p

/-- Remove the record stored under `name`, modelling
`services_.erase(it)`. -/
def eraseSvc : List (String × ServiceObj) → String → List (String × ServiceObj)
  | [], _ => []
  | p :: rest, name =>
    if p.1 = name then eraseSvc rest name else p :: eraseSvc rest name

/-- `ServiceManager::Impl`: the name → Service registry.  The C++
`unordered_map` iterates in an unspecified order; the list order here
stands for that iteration order. -/
structure ManagerImpl where
  services : List (String × ServiceObj)
deriving DecidableEq

def ManagerImpl.lookupService (m : ManagerImpl) (name : String) : Option ServiceObj :=
  lookupSvc m.services name

def ManagerImpl.updateService (m : ManagerImpl) (name : String) (sv : ServiceObj) :
    ManagerImpl :=
  ⟨updateSvc m.services name sv⟩

/-- `Impl::registerService`: fail on a duplicate name, otherwise create
the `Service`, install both callbacks, insert it, and return the result
of `saveConfig()` (modelled by the `saveOk` oracle for the
config-file write). -/
def ManagerImpl.registerService (m : ManagerImpl) (cfg : ServiceConfig) (saveOk : Bool) :
    Bool × ManagerImpl :=
  if (m.lookupService cfg.name).isSome then
    (false, m)
  else
    let sv : ServiceObj := { mkService cfg with hasStatusCb := true, hasErrorCb := true }
    (saveOk, ⟨m.services ++ [(cfg.name, sv)]⟩)

/-- `Impl::unregisterService`: fail on an unknown name, otherwise stop
the service, erase it, and return `saveConfig()`. -/
def ManagerImpl.unregisterService (m : ManagerImpl) (name : String) (se : StopEnv)
    (saveOk : Bool) : Bool × ManagerImpl × List Event :=
  match m.lookupService name with
  | none => (false, m, [])
  | some sv =>
    let r := Service.stop sv se
    (saveOk, ⟨eraseSvc m.services name⟩, r.events)

/-- `Impl::startService`: fail on an unknown name, otherwise delegate to
`Service::start`. -/
def ManagerImpl.startService (m : ManagerImpl) (name : String) (env : StartEnv) :
    Bool × ManagerImpl × List Event :=
  match m.lookupService name with
  | none => (false, m, [])
  | some sv =>
    let r := Service.start sv env
    (r.ok, m.updateService name r.svc, r.events)

/-- `Impl::stopService`: fail on an unknown name, otherwise delegate to
`Service::stop`. -/
def ManagerImpl.stopService (m : ManagerImpl) (name : String) (env : StopEnv) :
    Bool × ManagerImpl × List Event :=
  match m.lookupService name with
  | none => (false, m, [])
  | some sv =>
    let r := Service.stop sv env
    (r.ok, m.updateService name r.svc, r.events)

/-- `Impl::restartService`: fail on an unknown name, otherwise delegate
to `Service::restart`. -/
def ManagerImpl.restartService (m : ManagerImpl) (name : String) (se : StopEnv)
    (en : StartEnv) : Bool × ManagerImpl × List Event :=
  match m.lookupService name with
  | none => (false, m, [])
  | some sv =>
    let r := Service.restart sv se en
    (r.ok, m.updateService name r.svc, r.events)

/-- `Impl::getServiceStatus`: the Unknown-state placeholder for an
unknown name, otherwise a snapshot of the service's status. -/
def ManagerImpl.getServiceStatus (m : ManagerImpl) (name : String) : ServiceStatus :=
  match m.lookupService name with
  | none => notFoundServiceStatus
  | some sv => sv.status

/-- `Impl::isServiceRunning`: false for an unknown name, otherwise
`state == Running || state == Starting`. -/
def ManagerImpl.isServiceRunning (m : ManagerImpl) (name : String) : Bool :=
  match m.lookupService name with
  | none => false
  | some sv =>
    decide (sv.status.state = ServiceState.Running ∨ sv.status.state = ServiceState.Starting)

/-- `Impl::getServiceNames`: the keys in iteration order. -/
def ManagerImpl.getServiceNames (m : ManagerImpl) : List String :=
  m.services.map fun p => p.1

/-- `Impl::getServiceConfig`: value-initialized `ServiceConfig{}` for an
unknown name, otherwise a copy of the stored config. -/
def ManagerImpl.getServiceConfig (m : ManagerImpl) (name : String) : ServiceConfig :=
  match m.lookupService name with
  | none => defaultServiceConfig
  | some sv => sv.config

/-- `Impl::setServiceConfig`: fail on an unknown name, otherwise replace
the config and return `saveConfig()`. -/
def ManagerImpl.setServiceConfig (m : ManagerImpl) (name : String) (cfg : ServiceConfig)
    (saveOk : Bool) : Bool × ManagerImpl :=
  match m.lookupService name with
  | none => (false, m)
  | some sv => (saveOk, m.updateService name { sv with config := cfg })

/-- `Impl::enableService`: fail on an unknown name, otherwise set
`auto_start := true` and return `saveConfig()`. -/
def ManagerImpl.enableService (m : ManagerImpl) (name : String) (saveOk : Bool) :
    Bool × ManagerImpl :=
  match m.lookupService name with
  | none => (false, m)
  | some sv =>
    (saveOk, m.updateService name { sv with config := { sv.config with auto_start := true } })

/-- `Impl::disableService`: fail on an unknown name, otherwise set
`auto_start := false` and return `saveConfig()`. -/
def ManagerImpl.disableService (m : ManagerImpl) (name : String) (saveOk : Bool) :
    Bool × ManagerImpl :=
  match m.lookupService name with
  | none => (false, m)
  | some sv =>
    (saveOk, m.updateService name { sv with config := { sv.config with auto_start := false } })

/-- The priority key compared by the `startAllServices` sort
comparator. -/
def prio (m : ManagerImpl) (name : String) : Int :=
  (m.getServiceConfig name).priority.toInt

/-- The loop of `Impl::startAllServices` after the sort: walk the sorted
name list, issue `startService` to each name whose config has
`auto_start`, and conjoin the results.  The sorted list is a parameter
because `std::sort` guarantees only a priority-ordered permutation (it
is not stable, and the input order is the `unordered_map` iteration
order). -/
def ManagerImpl.startAllFrom :
    ManagerImpl → List String → (String → StartEnv) → Bool × ManagerImpl × List Event
  | m, [], _ => (true, m, [])
  | m, n :: rest, envs =>
    if (m.getServiceConfig n).auto_start then
      let r := m.startService n (envs n)
      let r2 := ManagerImpl.startAllFrom r.2.1 rest envs
      (r.1 && r2.1, r2.2.1, Event.startIssued n r.1 :: (r.2.2 ++ r2.2.2))
    else
      ManagerImpl.startAllFrom m rest envs

/-- The postcondition `std::sort` establishes for the
`startAllServices` comparator: a permutation of the input names that is
pairwise non-decreasing in priority.  Tie order is NOT constrained. -/
def IsSortOutput (m : ManagerImpl) (sorted : List String) : Prop :=
  sorted.Perm m.getServiceNames ∧
    sorted.Pairwise fun a b => prio m a ≤ prio m b

/-! Helper lemmas shared by the claim theorems. -/

theorem start_events_shape (s : ServiceObj) (env : StartEnv) :
    (Service.start s env).events = [] ∨ (Service.start s env).events = [Event.sleep 100] := by
  unfold Service.start
  repeat' split
  all_goals simp

theorem start_config_eq (s : ServiceObj) (env : StartEnv) :
    (Service.start s env).svc.config = s.config := by
  simp only [Service.start, Service.startMonitoring]
  repeat' split
  all_goals rfl

theorem restartAttempts_start (s : ServiceObj) (env : StartEnv) :
    restartAttempts (Service.start s env).events = 0 := by
  rcases start_events_shape s env with h | h <;> simp [restartAttempts, h]

theorem statusChangeCount_start (s : ServiceObj) (env : StartEnv) :
    statusChangeCount (Service.start s env).events = 0 := by
  rcases start_events_shape s env with h | h <;> simp [statusChangeCount, h]

theorem issueTrace_start (s : ServiceObj) (env : StartEnv) :
    issueTrace (Service.start s env).events = [] := by
  rcases start_events_shape s env with h | h <;> simp [issueTrace, h]

theorem issueFailures_start (s : ServiceObj) (env : StartEnv) :
    issueFailures (Service.start s env).events = 0 := by
  rcases start_events_shape s env with h | h <;> simp [issueFailures, h]

theorem lookupSvc_append_self (l : List (String × ServiceObj)) (name : String)
    (sv : ServiceObj) (h : lookupSvc l name = none) :
    lookupSvc (l ++ [(name, sv)]) name = some sv := by
  induction l with
  | nil => simp [lookupSvc]
  | cons p rest ih =>
    rw [List.cons_append]
    by_cases hp : p.1 = name
    · rw [lookupSvc, if_pos hp] at h
      exact absurd h (by simp)
    · rw [lookupSvc, if_neg hp] at h
      rw [lookupSvc, if_neg hp]
      exact ih h

theorem lookupSvc_updateSvc (l : List (String × ServiceObj)) (name n2 : String)
    (sv : ServiceObj) :
    lookupSvc (updateSvc l name sv) n2 =
      if n2 = name then (lookupSvc l name).map (fun _ => sv) else lookupSvc l n2 := by
  induction l with
  | nil => by_cases h : n2 = name <;> simp [lookupSvc, updateSvc, h]
  | cons p rest ih =>
    simp only [updateSvc] at ih ⊢
    rw [List.map_cons]
    by_cases hp : p.1 = name
    · by_cases hn : n2 = name
      · subst hn
        simp [lookupSvc, hp]
      · have h2 : ¬ p.1 = n2 := fun hh => hn (hh ▸ hp)
        have hn2 : ¬ name = n2 := fun hh => hn hh.symm
        simp [lookupSvc, hp, hn, hn2, h2, ih]
    · by_cases hq : p.1 = n2
      · have hn : ¬ n2 = name := fun hh => hp (hq.trans hh)
        simp [lookupSvc, hp, hq, hn]
      · simp [lookupSvc, hp, hq, ih]

theorem getServiceConfig_startService (m : ManagerImpl) (n : String) (env : StartEnv)
    (n2 : String) :
    ((m.startService n env).2.1).getServiceConfig n2 = m.getServiceConfig n2 := by
  unfold ManagerImpl.startService
  cases h : m.lookupService n with
  | none => rfl
  | some sv =>
    simp only [ManagerImpl.getServiceConfig, ManagerImpl.updateService,
      ManagerImpl.lookupService] at *
    rw [lookupSvc_updateSvc]
    by_cases h2 : n2 = n
    · subst h2
      rw [if_pos rfl, h]
      simp [start_config_eq, h]
    · rw [if_neg h2]

/-! C1.  The claim: `start()` on a service with a non-Running declared
dependency fails with a dependency-unready error, leaves the state
Stopped, and does not increment `restart_count`.  The code's
`Service::checkDependencies` is a stub that unconditionally returns
`true` (its own comment says the dependency services SHOULD be checked
and that the simplified implementation assumes them satisfied), so the
guard never fires. -/

def c1Config : ServiceConfig :=
  { defaultServiceConfig with
      name := "app", dependencies := ["net"], max_restart_attempts := 3 }

def c1Service : ServiceObj :=
  { mkService c1Config with hasStatusCb := true, hasErrorCb := true }

def c1Env : StartEnv :=
  { forkOk := true, childPid := 1234, aliveAfterGrace := true, now := 7 }

/-- C1: the dependency check is a stub returning `true`, so `start()` on
a Stopped service declaring the dependency "net" — with no service named
"net" Running anywhere — returns success, transitions to Running,
increments `restart_count`, and never produces the dependency-unready
error, contradicting the claimed fail-fast behaviour (which, per the
claim, should return failure, keep the state Stopped and leave
`restart_count` untouched). -/
theorem c1_dependency_check_is_stubbed :
    Service.checkDependencies c1Config = true ∧
    c1Service.status.state = ServiceState.Stopped ∧
    (Service.start c1Service c1Env).ok = true ∧
    (Service.start c1Service c1Env).svc.status.state = ServiceState.Running ∧
    (Service.start c1Service c1Env).svc.status.restart_count = 1 ∧
    (Service.start c1Service c1Env).svc.status.last_error ≠ "依赖服务未就绪" := by
  decide

/-! C7.  `start()` on an already-Running service is a no-op returning
success. -/

/-- C7: when the service is already Running, `start()` returns success,
leaves the whole service object (state, `restart_count`, everything)
unchanged, and emits no events at all — in particular no status-change
event. -/
theorem c7_start_idempotent_on_running (s : ServiceObj) (env : StartEnv)
    (h : s.status.state = ServiceState.Running) :
    Service.start s env = ⟨true, s, []⟩ := by
  unfold Service.start
  rw [if_pos (Or.inl h)]

/-- Witness for C7 at a concrete Running service. -/
theorem c7_witness :
    Service.start
        { mkService defaultServiceConfig with
            status := { initialServiceStatus with state := .Running, pid := 5, restart_count := 2 },
            monRunning := true }
        { forkOk := true, childPid := 9, aliveAfterGrace := true, now := 1 }
      = ⟨true,
          { mkService defaultServiceConfig with
              status := { initialServiceStatus with state := .Running, pid := 5, restart_count := 2 },
              monRunning := true }, []⟩ :=
  c7_start_idempotent_on_running _ _ rfl

/-! C8.  Unknown-name behaviour: the status query returns a defined
Unknown-state placeholder; the mutating operations fail with `false`. -/

/-- C8: for a name absent from the registry, `getServiceStatus` succeeds
and returns the placeholder whose state is Unknown, with the sentinel
pid and the not-found error message "服务不存在", while every mutating
operation — start, stop, restart, unregister, setConfig, enable,
disable — returns failure. -/
theorem c8_unknown_name_placeholder (m : ManagerImpl) (name : String) (se : StopEnv)
    (en : StartEnv) (cfg : ServiceConfig) (saveOk : Bool)
    (h : m.lookupService name = none) :
    (m.getServiceStatus name).state = ServiceState.Unknown ∧
    (m.getServiceStatus name).pid = -1 ∧
    (m.getServiceStatus name).last_error = "服务不存在" ∧
    (m.startService name en).1 = false ∧
    (m.stopService name se).1 = false ∧
    (m.restartService name se en).1 = false ∧
    (m.unregisterService name se saveOk).1 = false ∧
    (m.setServiceConfig name cfg saveOk).1 = false ∧
    (m.enableService name saveOk).1 = false ∧
    (m.disableService name saveOk).1 = false := by
  simp [ManagerImpl.getServiceStatus, ManagerImpl.startService, ManagerImpl.stopService,
    ManagerImpl.restartService, ManagerImpl.unregisterService, ManagerImpl.setServiceConfig,
    ManagerImpl.enableService, ManagerImpl.disableService, h, notFoundServiceStatus]

/-- Witness for C8 at the empty registry and the name "ghost". -/
theorem c8_witness :
    (ManagerImpl.getServiceStatus ⟨[]⟩ "ghost").state = ServiceState.Unknown ∧
    (ManagerImpl.getServiceStatus ⟨[]⟩ "ghost").pid = -1 ∧
    (ManagerImpl.getServiceStatus ⟨[]⟩ "ghost").last_error = "服务不存在" ∧
    (ManagerImpl.startService ⟨[]⟩ "ghost"
        { forkOk := true, childPid := 1, aliveAfterGrace := true, now := 0 }).1 = false ∧
    (ManagerImpl.stopService ⟨[]⟩ "ghost"
        { sigtermOk := true, waitpidRes := 1, sigkillOk := true }).1 = false ∧
    (ManagerImpl.restartService ⟨[]⟩ "ghost"
        { sigtermOk := true, waitpidRes := 1, sigkillOk := true }
        { forkOk := true, childPid := 1, aliveAfterGrace := true, now := 0 }).1 = false ∧
    (ManagerImpl.unregisterService ⟨[]⟩ "ghost"
        { sigtermOk := true, waitpidRes := 1, sigkillOk := true } true).1 = false ∧
    (ManagerImpl.setServiceConfig ⟨[]⟩ "ghost" defaultServiceConfig true).1 = false ∧
    (ManagerImpl.enableService ⟨[]⟩ "ghost" true).1 = false ∧
    (ManagerImpl.disableService ⟨[]⟩ "ghost" true).1 = false :=
  c8_unknown_name_placeholder ⟨[]⟩ "ghost"
    { sigtermOk := true, waitpidRes := 1, sigkillOk := true }
    { forkOk := true, childPid := 1, aliveAfterGrace := true, now := 0 }
    defaultServiceConfig true rfl

/-! C9.  `registerService` inserts first and then returns the result of
persisting the configuration, so a `false` return can leave the service
registered. -/

/-- C9: registering a fresh name inserts the new record into the
registry and returns the `saveConfig()` result; in particular, when
persistence fails the call returns `false` while the service remains
registered, so a `false` return does not imply an unchanged registry. -/
theorem c9_register_inserts_then_persists (m : ManagerImpl) (cfg : ServiceConfig)
    (saveOk : Bool) (h : m.lookupService cfg.name = none) :
    (m.registerService cfg saveOk).1 = saveOk ∧
    ((m.registerService cfg saveOk).2.lookupService cfg.name).isSome = true ∧
    (saveOk = false →
      (m.registerService cfg saveOk).1 = false ∧
      ((m.registerService cfg saveOk).2.lookupService cfg.name).isSome = true) := by
  have hnot : ¬ (m.lookupService cfg.name).isSome = true := by simp [h]
  unfold ManagerImpl.registerService
  rw [if_neg hnot]
  refine ⟨rfl, ?_, fun hs => ⟨hs, ?_⟩⟩
  all_goals
    simp only [ManagerImpl.lookupService] at h ⊢
    rw [lookupSvc_append_self m.services cfg.name _ h]
    rfl

/-- Witness for C9: registering "web" into the empty registry with a
failing persistence write returns false yet leaves "web" registered. -/
theorem c9_witness :
    (ManagerImpl.registerService ⟨[]⟩ { defaultServiceConfig with name := "web" } false).1
        = false ∧
    ((ManagerImpl.registerService ⟨[]⟩ { defaultServiceConfig with name := "web" }
        false).2.lookupService "web").isSome = true ∧
    (false = false →
      (ManagerImpl.registerService ⟨[]⟩ { defaultServiceConfig with name := "web" } false).1
          = false ∧
      ((ManagerImpl.registerService ⟨[]⟩ { defaultServiceConfig with name := "web" }
          false).2.lookupService "web").isSome = true) :=
  c9_register_inserts_then_persists ⟨[]⟩ { defaultServiceConfig with name := "web" } false rfl

/-! C10.  `isServiceRunning` is true exactly for registered services in
state Running or Starting. -/

/-- C10: `isServiceRunning(name)` returns true iff the name is
registered and the stored service's state is Running or Starting, and it
returns false for every unregistered name. -/
theorem c10_is_running_characterization (m : ManagerImpl) (name : String) :
    (m.isServiceRunning name = true ↔
      ∃ sv, m.lookupService name = some sv ∧
        (sv.status.state = ServiceState.Running ∨ sv.status.state = ServiceState.Starting)) ∧
    (m.lookupService name = none → m.isServiceRunning name = false) := by
  cases h : m.lookupService name with
  | none => simp [ManagerImpl.isServiceRunning, h]
  | some sv => simp [ManagerImpl.isServiceRunning, h]

/-- Witness for C10 at a one-service registry whose service is
Starting. -/
theorem c10_witness :
    (ManagerImpl.isServiceRunning
        ⟨[("db", { mkService defaultServiceConfig with
            status := { initialServiceStatus with state := .Starting, pid := 8 } })]⟩
        "db" = true ↔
      ∃ sv, (ManagerImpl.lookupService
          ⟨[("db", { mkService defaultServiceConfig with
              status := { initialServiceStatus with state := .Starting, pid := 8 } })]⟩
          "db") = some sv ∧
        (sv.status.state = ServiceState.Running ∨ sv.status.state = ServiceState.Starting)) ∧
    (ManagerImpl.lookupService
        ⟨[("db", { mkService defaultServiceConfig with
            status := { initialServiceStatus with state := .Starting, pid := 8 } })]⟩
        "db" = none →
      ManagerImpl.isServiceRunning
        ⟨[("db", { mkService defaultServiceConfig with
            status := { initialServiceStatus with state := .Starting, pid := 8 } })]⟩
        "db" = false) :=
  c10_is_running_characterization _ "db"

/-! C2.  The Monitor's reaction to an observed unexpected exit. -/

theorem restartAttempts_append (a b : List Event) :
    restartAttempts (a ++ b) = restartAttempts a + restartAttempts b := by
  simp [restartAttempts, List.countP_append]

theorem restartAttempts_cons_sleep (n : Nat) (l : List Event) :
    restartAttempts (Event.sleep n :: l) = restartAttempts l := by
  simp [restartAttempts, List.countP_cons]

theorem restartAttempts_cons_restart (l : List Event) :
    restartAttempts (Event.restartAttempt :: l) = restartAttempts l + 1 := by
  simp [restartAttempts, List.countP_cons]

theorem restartAttempts_ite_err (c : Bool) (msg : String) :
    restartAttempts (if c then [Event.errorEmit msg] else []) = 0 := by
  cases c <;> simp [restartAttempts]

theorem monitorPoll_dead (s : ServiceObj) (env : MonitorEnv)
    (hpid : ¬ s.status.pid = -1) (hdead : env.alive = false) :
    Service.monitorPoll s env =
      (if s.status.restart_count < s.config.max_restart_attempts then
        ((Service.start
            { s with status := { s.status with state := .Failed, last_error := "进程意外退出" } }
            env.restartEnv).svc,
          (if s.hasErrorCb then [Event.errorEmit "进程意外退出"] else []) ++
            Event.sleep s.config.restart_delay :: Event.restartAttempt ::
              (Service.start
                { s with status := { s.status with state := .Failed, last_error := "进程意外退出" } }
                env.restartEnv).events,
          false)
      else
        ({ s with status := { s.status with state := .Failed, last_error := "进程意外退出" } },
          if s.hasErrorCb then [Event.errorEmit "进程意外退出"] else [], false)) := by
  simp only [Service.monitorPoll, hpid, hdead]
  simp

/-- C2: when the Monitor observes an unexpected process exit (liveness
probe fails on a recorded pid), then — while `restart_count <
max_restart_attempts` — the entire remaining monitor trace contains
exactly one automatic restart attempt, placed immediately after a sleep
of the configured restart delay, and the monitor loop terminates (so no
second automatic restart can ever follow); once `restart_count` has
reached `max_restart_attempts`, the trace contains no restart attempt at
all, the service is left in Failed, and the loop likewise terminates. -/
theorem c2_monitor_restart_bounded (fuel : Nat) (s : ServiceObj) (envs : Nat → MonitorEnv)
    (hpid : ¬ s.status.pid = -1) (hdead : (envs 0).alive = false) :
    (s.status.restart_count < s.config.max_restart_attempts →
      restartAttempts (Service.monitorLoop (fuel + 1) s envs).2 = 1 ∧
      (∃ post, (Service.monitorLoop (fuel + 1) s envs).2 =
        (if s.hasErrorCb then [Event.errorEmit "进程意外退出"] else []) ++
          Event.sleep s.config.restart_delay :: Event.restartAttempt :: post)) ∧
    (s.config.max_restart_attempts ≤ s.status.restart_count →
      restartAttempts (Service.monitorLoop (fuel + 1) s envs).2 = 0 ∧
      (Service.monitorLoop (fuel + 1) s envs).1.status.state = ServiceState.Failed) := by
  constructor
  · intro hlt
    have hloop : Service.monitorLoop (fuel + 1) s envs =
        ((Service.start
            { s with status := { s.status with state := .Failed, last_error := "进程意外退出" } }
            (envs 0).restartEnv).svc,
          (if s.hasErrorCb then [Event.errorEmit "进程意外退出"] else []) ++
            Event.sleep s.config.restart_delay :: Event.restartAttempt ::
              (Service.start
                { s with status := { s.status with state := .Failed, last_error := "进程意外退出" } }
                (envs 0).restartEnv).events) := by
      simp only [Service.monitorLoop, monitorPoll_dead s (envs 0) hpid hdead, if_pos hlt]
      simp
    rw [hloop]
    refine ⟨?_, _, rfl⟩
    rw [restartAttempts_append, restartAttempts_ite_err, restartAttempts_cons_sleep,
      restartAttempts_cons_restart, restartAttempts_start]
  · intro hge
    have hnlt : ¬ s.status.restart_count < s.config.max_restart_attempts := Nat.not_lt.mpr hge
    have hloop : Service.monitorLoop (fuel + 1) s envs =
        ({ s with status := { s.status with state := .Failed, last_error := "进程意外退出" } },
          if s.hasErrorCb then [Event.errorEmit "进程意外退出"] else []) := by
      simp only [Service.monitorLoop, monitorPoll_dead s (envs 0) hpid hdead, if_neg hnlt]
      simp
    rw [hloop]
    exact ⟨restartAttempts_ite_err _ _, rfl⟩

def c2Cfg : ServiceConfig :=
  { defaultServiceConfig with name := "net", max_restart_attempts := 3, restart_delay := 500 }

def c2SvcBelow : ServiceObj :=
  { mkService c2Cfg with
      status := { initialServiceStatus with state := .Running, pid := 42, restart_count := 1 },
      monRunning := true, hasStatusCb := true, hasErrorCb := true }

def c2SvcAtMax : ServiceObj :=
  { mkService c2Cfg with
      status := { initialServiceStatus with state := .Running, pid := 42, restart_count := 3 },
      monRunning := true, hasStatusCb := true, hasErrorCb := true }

def c2Env : MonitorEnv :=
  { alive := false, now := 9, memSample := 0, cpuSample := 0,
    restartEnv := { forkOk := true, childPid := 43, aliveAfterGrace := true, now := 10 } }

/-- Witness for C2: a Running service with pid 42 and restart_count 1
below max 3 restarts exactly once; the same service with restart_count 3
stays Failed with no restart. -/
theorem c2_witness :
    restartAttempts (Service.monitorLoop 1 c2SvcBelow (fun _ => c2Env)).2 = 1 ∧
    (restartAttempts (Service.monitorLoop 4 c2SvcAtMax (fun _ => c2Env)).2 = 0 ∧
      (Service.monitorLoop 4 c2SvcAtMax (fun _ => c2Env)).1.status.state
        = ServiceState.Failed) :=
  ⟨((c2_monitor_restart_bounded 0 c2SvcBelow (fun _ => c2Env) (by decide) rfl).1
      (by decide)).1,
    (c2_monitor_restart_bounded 3 c2SvcAtMax (fun _ => c2Env) (by decide) rfl).2 (by decide)⟩

/-! C3.  The claim: `stop()` always ends in Stopped with pid cleared and
the Monitor stopped.  The code has failure paths (SIGTERM/waitpid/SIGKILL
errors) that end in Failed with pid retained and the monitor untouched,
and the already-Stopping no-op returns without reaching Stopped. -/

def c3Svc : ServiceObj :=
  { mkService c2Cfg with
      status := { initialServiceStatus with state := .Running, pid := 42, restart_count := 1 },
      monRunning := true, hasStatusCb := true, hasErrorCb := true }

def c3SvcStopping : ServiceObj :=
  { c3Svc with status := { c3Svc.status with state := .Stopping } }

def c3EnvTermFails : StopEnv := { sigtermOk := false, waitpidRes := 0, sigkillOk := true }

def c3EnvOk : StopEnv := { sigtermOk := true, waitpidRes := 0, sigkillOk := true }

/-- C3 counterexample: on a Running service with pid 42 and an active
monitor, a failing SIGTERM makes `stop()` return false with the service
in Failed, pid still 42, and the monitor still running — not Stopped
with pid cleared and the monitor joined; and `stop()` on an
already-Stopping service returns true leaving the state Stopping, not
Stopped. -/
theorem c3_counterexample :
    ((Service.stop c3Svc c3EnvTermFails).ok = false ∧
      (Service.stop c3Svc c3EnvTermFails).svc.status.state = ServiceState.Failed ∧
      (Service.stop c3Svc c3EnvTermFails).svc.status.state ≠ ServiceState.Stopped ∧
      (Service.stop c3Svc c3EnvTermFails).svc.status.pid = 42 ∧
      (Service.stop c3Svc c3EnvTermFails).svc.monRunning = true) ∧
    ((Service.stop c3SvcStopping c3EnvOk).ok = true ∧
      (Service.stop c3SvcStopping c3EnvOk).svc.status.state = ServiceState.Stopping ∧
      (Service.stop c3SvcStopping c3EnvOk).svc.status.state ≠ ServiceState.Stopped) := by
  decide

/-- C3 as amended: from any state other than Stopped/Stopping, when the
SIGTERM, waitpid and (if needed) SIGKILL OS calls all succeed, `stop()`
returns true ending in Stopped with pid cleared, and — whenever a pid
was recorded — the Monitor is stopped (flag cleared, and the thread
joined when one was running) before `stop()` returns; but when sending
SIGTERM fails, `stop()` returns false and leaves the service in Failed
with its pid retained and the Monitor still running. -/
theorem c3_stop_contract (s : ServiceObj) (env : StopEnv) :
    (s.status.state ≠ ServiceState.Stopped → s.status.state ≠ ServiceState.Stopping →
      env.sigtermOk = true → env.waitpidRes ≠ -1 →
      (env.waitpidRes = 0 → env.sigkillOk = true) →
      (Service.stop s env).ok = true ∧
      (Service.stop s env).svc.status.state = ServiceState.Stopped ∧
      (Service.stop s env).svc.status.pid = -1 ∧
      (s.status.pid ≠ -1 →
        (Service.stop s env).svc.monRunning = false ∧
        (s.monRunning = true → Event.monitorJoin ∈ (Service.stop s env).events))) ∧
    (s.status.state ≠ ServiceState.Stopped → s.status.state ≠ ServiceState.Stopping →
      s.status.pid ≠ -1 → env.sigtermOk = false →
      (Service.stop s env).ok = false ∧
      (Service.stop s env).svc.status.state = ServiceState.Failed ∧
      (Service.stop s env).svc.status.pid = s.status.pid ∧
      (Service.stop s env).svc.monRunning = s.monRunning) := by
  constructor
  · intro h1 h2 hterm hw hk
    have hcond : ¬ (s.status.state = ServiceState.Stopped ∨
        s.status.state = ServiceState.Stopping) := by
      rintro (h | h)
      · exact h1 h
      · exact h2 h
    by_cases hpid : s.status.pid = -1
    · refine ⟨?_, ?_, ?_, fun hne => absurd hpid hne⟩ <;>
        simp [Service.stop, hcond, hpid]
    · have hterm2 : ¬ env.sigtermOk = false := by simp [hterm]
      by_cases hw0 : env.waitpidRes = 0
      · have hkill : ¬ env.sigkillOk = false := by simp [hk hw0]
        have hres : Service.stop s env =
            Service.finishStop s { s.status with state := .Stopping }
              [Event.sleep s.config.shutdown_timeout] := by
          simp [Service.stop, hcond, hpid, hterm2, hw, hw0, hkill]
        refine ⟨?_, ?_, ?_, fun _ => ⟨?_, fun hmr => ?_⟩⟩ <;>
          simp [hres, Service.finishStop, Service.stopMonitoringM]
        simp [hmr]
      · have hres : Service.stop s env =
            Service.finishStop s { s.status with state := .Stopping } [] := by
          simp [Service.stop, hcond, hpid, hterm2, hw, hw0]
        refine ⟨?_, ?_, ?_, fun _ => ⟨?_, fun hmr => ?_⟩⟩ <;>
          simp [hres, Service.finishStop, Service.stopMonitoringM]
        simp [hmr]
  · intro h1 h2 hpid hterm
    have hcond : ¬ (s.status.state = ServiceState.Stopped ∨
        s.status.state = ServiceState.Stopping) := by
      rintro (h | h)
      · exact h1 h
      · exact h2 h
    have hres : Service.stop s env =
        ⟨false,
          { s with status :=
              { s.status with
                  state := .Failed
                  last_error := "发送停止信号失败" } },
          []⟩ := by
      simp [Service.stop, hcond, hpid, hterm]
    refine ⟨?_, ?_, ?_, ?_⟩ <;> simp [hres]

/-- Witness for C3's amended contract: the happy path on a Running
service with pid 42 and active monitor ends Stopped, pid cleared,
monitor joined; the SIGTERM-failure path on the same service returns
false in Failed with pid and monitor untouched. -/
theorem c3_witness :
    ((Service.stop c3Svc c3EnvOk).ok = true ∧
      (Service.stop c3Svc c3EnvOk).svc.status.state = ServiceState.Stopped ∧
      (Service.stop c3Svc c3EnvOk).svc.status.pid = -1 ∧
      (c3Svc.status.pid ≠ -1 →
        (Service.stop c3Svc c3EnvOk).svc.monRunning = false ∧
        (c3Svc.monRunning = true →
          Event.monitorJoin ∈ (Service.stop c3Svc c3EnvOk).events))) ∧
    ((Service.stop c3Svc c3EnvTermFails).ok = false ∧
      (Service.stop c3Svc c3EnvTermFails).svc.status.state = ServiceState.Failed ∧
      (Service.stop c3Svc c3EnvTermFails).svc.status.pid = c3Svc.status.pid ∧
      (Service.stop c3Svc c3EnvTermFails).svc.monRunning = c3Svc.monRunning) :=
  ⟨(c3_stop_contract c3Svc c3EnvOk).1 (by decide) (by decide) rfl (by decide) (by decide),
    (c3_stop_contract c3Svc c3EnvTermFails).2 (by decide) (by decide) (by decide) rfl⟩

/-! C4.  The claim: pid is set iff state ∈ {Starting, Running, Stopping}
with a successful spawn, and is cleared on every transition into Stopped
or Failed.  The code never clears pid on a transition into Failed. -/

def c4Svc : ServiceObj :=
  { mkService c2Cfg with hasStatusCb := true, hasErrorCb := true }

def c4EnvDead : StartEnv :=
  { forkOk := true, childPid := 77, aliveAfterGrace := false, now := 3 }

/-- C4 counterexample: `start()` with a successful fork whose child is
already dead at the liveness probe transitions into Failed with pid
still 77 — a real process id retained in a state outside
{Starting, Running, Stopping}, contradicting both directions of the
claimed invariant (pid not cleared on the transition into Failed). -/
theorem c4_counterexample :
    (Service.start c4Svc c4EnvDead).svc.status.state = ServiceState.Failed ∧
    (Service.start c4Svc c4EnvDead).svc.status.pid = 77 ∧
    (Service.start c4Svc c4EnvDead).svc.status.pid ≠ -1 := by
  decide

/-- C4 as amended: every transition into Stopped performed by `stop()`
clears pid to the sentinel, but transitions into Failed do not clear
pid: a spawn that exits immediately leaves Failed with pid holding the
dead child's id, and the Monitor's Failed transition on an observed
unexpected exit likewise retains the pid it was watching. -/
theorem c4_pid_clearing (s : ServiceObj) (senv : StopEnv) (env : StartEnv)
    (menv : MonitorEnv) :
    (s.status.state ≠ ServiceState.Stopped →
      (Service.stop s senv).svc.status.state = ServiceState.Stopped →
      (Service.stop s senv).svc.status.pid = -1) ∧
    (s.status.state ≠ ServiceState.Running → s.status.state ≠ ServiceState.Starting →
      env.forkOk = true → env.aliveAfterGrace = false →
      (Service.start s env).svc.status.state = ServiceState.Failed ∧
      (Service.start s env).svc.status.pid = env.childPid) ∧
    (s.status.pid ≠ -1 → menv.alive = false →
      s.config.max_restart_attempts ≤ s.status.restart_count →
      (Service.monitorPoll s menv).1.status.state = ServiceState.Failed ∧
      (Service.monitorPoll s menv).1.status.pid = s.status.pid) := by
  refine ⟨?_, ?_, ?_⟩
  · intro h1
    by_cases hcond : s.status.state = ServiceState.Stopped ∨
        s.status.state = ServiceState.Stopping
    · rcases hcond with h | h
      · exact absurd h h1
      · intro hstop
        exfalso
        have : (Service.stop s senv).svc.status.state = s.status.state := by
          simp [Service.stop, h]
        rw [this, h] at hstop
        exact ServiceState.noConfusion hstop
    · by_cases hpid : s.status.pid = -1
      · intro _
        simp [Service.stop, hcond, hpid]
      · by_cases hterm : senv.sigtermOk = false
        · intro hstop
          exfalso
          have : (Service.stop s senv).svc.status.state = ServiceState.Failed := by
            simp [Service.stop, hcond, hpid, hterm]
          rw [this] at hstop
          exact ServiceState.noConfusion hstop
        · by_cases hw : senv.waitpidRes = -1
          · intro hstop
            exfalso
            have : (Service.stop s senv).svc.status.state = ServiceState.Failed := by
              simp [Service.stop, hcond, hpid, hterm, hw]
            rw [this] at hstop
            exact ServiceState.noConfusion hstop
          · by_cases hw0 : senv.waitpidRes = 0
            · by_cases hkill : senv.sigkillOk = false
              · intro hstop
                exfalso
                have : (Service.stop s senv).svc.status.state = ServiceState.Failed := by
                  simp [Service.stop, hcond, hpid, hterm, hw, hw0, hkill]
                rw [this] at hstop
                exact ServiceState.noConfusion hstop
              · intro _
                simp [Service.stop, hcond, hpid, hterm, hw, hw0, hkill,
                  Service.finishStop, Service.stopMonitoringM]
            · intro _
              simp [Service.stop, hcond, hpid, hterm, hw, hw0,
                Service.finishStop, Service.stopMonitoringM]
  · intro h1 h2 hfork hdead
    have hcond : ¬ (s.status.state = ServiceState.Running ∨
        s.status.state = ServiceState.Starting) := by
      rintro (h | h)
      · exact h1 h
      · exact h2 h
    have hfork2 : ¬ env.forkOk = false := by simp [hfork]
    constructor <;>
      simp [Service.start, Service.checkDependencies, hcond, hfork2, hdead]
  · intro hpid hdead hge
    have hnlt : ¬ s.status.restart_count < s.config.max_restart_attempts :=
      Nat.not_lt.mpr hge
    rw [monitorPoll_dead s menv hpid hdead, if_neg hnlt]
    exact ⟨rfl, rfl⟩

/-- Witness for C4's amended statement: a successful `stop()` on a
Running service clears pid; an immediate-exit `start()` ends Failed with
pid 77 retained; the Monitor's exhausted-attempts Failed transition
keeps pid 42. -/
theorem c4_witness :
    ((Service.stop c3Svc c3EnvOk).svc.status.state = ServiceState.Stopped →
      (Service.stop c3Svc c3EnvOk).svc.status.pid = -1) ∧
    ((Service.start c4Svc c4EnvDead).svc.status.state = ServiceState.Failed ∧
      (Service.start c4Svc c4EnvDead).svc.status.pid = c4EnvDead.childPid) ∧
    ((Service.monitorPoll c2SvcAtMax c2Env).1.status.state = ServiceState.Failed ∧
      (Service.monitorPoll c2SvcAtMax c2Env).1.status.pid = c2SvcAtMax.status.pid) :=
  ⟨(c4_pid_clearing c3Svc c3EnvOk c4EnvDead c2Env).1 (by decide),
    (c4_pid_clearing c4Svc c3EnvOk c4EnvDead c2Env).2.1 (by decide) (by decide) rfl rfl,
    (c4_pid_clearing c2SvcAtMax c3EnvOk c4EnvDead c2Env).2.2 (by decide) rfl (by decide)⟩

/-! C5.  The claim: a status-change notification is emitted exactly on
every accepted state transition and never on a no-op.  In the code only
`updateStatus` fires the callback; `start`, `stop`, `restart` and the
Monitor assign `status_.state` directly and never notify. -/

def c5Env : StartEnv :=
  { forkOk := true, childPid := 9, aliveAfterGrace := true, now := 1 }

theorem countP_statusChange_start (s : ServiceObj) (env : StartEnv) :
    List.countP
      (fun e =>
        match e with
        | Event.statusChange _ _ => true
        | _ => false)
      (Service.start s env).events = 0 :=
  statusChangeCount_start s env

theorem statusChangeCount_stop (s : ServiceObj) (senv : StopEnv) :
    statusChangeCount (Service.stop s senv).events = 0 := by
  unfold Service.stop Service.finishStop Service.stopMonitoringM
  repeat' split
  all_goals try simp [statusChangeCount, List.countP_append, List.countP_cons]

theorem statusChangeCount_append (a b : List Event) :
    statusChangeCount (a ++ b) = statusChangeCount a + statusChangeCount b := by
  simp [statusChangeCount, List.countP_append]

theorem statusChangeCount_cons_sleep (n : Nat) (l : List Event) :
    statusChangeCount (Event.sleep n :: l) = statusChangeCount l := by
  simp [statusChangeCount, List.countP_cons]

theorem statusChangeCount_cons_restart (l : List Event) :
    statusChangeCount (Event.restartAttempt :: l) = statusChangeCount l := by
  simp [statusChangeCount, List.countP_cons]

theorem statusChangeCount_ite_err (c : Bool) (msg : String) :
    statusChangeCount (if c then [Event.errorEmit msg] else []) = 0 := by
  cases c <;> simp [statusChangeCount]

theorem statusChangeCount_monitorPoll (s : ServiceObj) (menv : MonitorEnv) :
    statusChangeCount (Service.monitorPoll s menv).2.1 = 0 := by
  by_cases hpid : s.status.pid = -1
  · simp [Service.monitorPoll, hpid, statusChangeCount]
  · by_cases halive : menv.alive = true
    · simp [Service.monitorPoll, hpid, halive, statusChangeCount]
    · have hdead : menv.alive = false := by
        cases h : menv.alive
        · rfl
        · exact absurd h halive
      rw [monitorPoll_dead s menv hpid hdead]
      by_cases hlt : s.status.restart_count < s.config.max_restart_attempts
      · rw [if_pos hlt]
        rw [statusChangeCount_append, statusChangeCount_ite_err,
          statusChangeCount_cons_sleep, statusChangeCount_cons_restart,
          statusChangeCount_start]
      · rw [if_neg hlt]
        exact statusChangeCount_ite_err _ _

/-- C5 counterexample: `start()` on a Stopped service (with the
status-change callback installed) performs the accepted transitions
Stopped → Starting → Running yet its trace contains zero status-change
notifications. -/
theorem c5_counterexample :
    c4Svc.status.state = ServiceState.Stopped ∧
    c4Svc.hasStatusCb = true ∧
    (Service.start c4Svc c5Env).svc.status.state = ServiceState.Running ∧
    statusChangeCount (Service.start c4Svc c5Env).events = 0 := by
  decide

/-- C5 as amended: only `updateStatus` emits a status-change
notification — exactly one, precisely when the stored state differs from
the new state and the callback is installed, and none on a no-op — while
`start()`, `stop()` and the Monitor's poll cycle never emit status-change
notifications no matter what transitions they perform. -/
theorem c5_notifications (s : ServiceObj) (st : ServiceStatus) (env : StartEnv)
    (senv : StopEnv) (menv : MonitorEnv) :
    ((Service.updateStatus s st).2 =
      (if s.status.state ≠ st.state ∧ s.hasStatusCb = true then
        [Event.statusChange s.status.state st.state]
      else [])) ∧
    (s.status.state = st.state → (Service.updateStatus s st).2 = []) ∧
    statusChangeCount (Service.start s env).events = 0 ∧
    statusChangeCount (Service.stop s senv).events = 0 ∧
    statusChangeCount (Service.monitorPoll s menv).2.1 = 0 := by
  refine ⟨?_, ?_, statusChangeCount_start s env,
    statusChangeCount_stop s senv, statusChangeCount_monitorPoll s menv⟩
  · simp only [Service.updateStatus]
    split <;> rfl
  · intro h
    simp [Service.updateStatus, h]

/-- Witness for C5's amended statement at a concrete service: an
`updateStatus` no-op emits nothing, and the start/stop/monitor calls of
the concrete Running service emit no status-change events. -/
theorem c5_witness :
    ((Service.updateStatus c3Svc c3Svc.status).2 =
      (if c3Svc.status.state ≠ c3Svc.status.state ∧ c3Svc.hasStatusCb = true then
        [Event.statusChange c3Svc.status.state c3Svc.status.state]
      else [])) ∧
    (c3Svc.status.state = c3Svc.status.state →
      (Service.updateStatus c3Svc c3Svc.status).2 = []) ∧
    statusChangeCount (Service.start c3Svc c5Env).events = 0 ∧
    statusChangeCount (Service.stop c3Svc c3EnvOk).events = 0 ∧
    statusChangeCount (Service.monitorPoll c3Svc c2Env).2.1 = 0 :=
  c5_notifications c3Svc c3Svc.status c5Env c3EnvOk c2Env

/-! C6.  `startAllServices`: priority-ordered issuing of `start()` to
the auto_start services.  The C++ sorts with non-stable `std::sort` over
the `unordered_map` iteration order, so only "pairwise non-decreasing
priority permutation" is guaranteed; ties have no defined order. -/

theorem issueTrace_startService (m : ManagerImpl) (n : String) (env : StartEnv) :
    issueTrace (m.startService n env).2.2 = [] := by
  unfold ManagerImpl.startService
  cases h : m.lookupService n with
  | none => simp [issueTrace]
  | some sv => rcases start_events_shape sv env with he | he <;> simp [issueTrace, he]

theorem issueFailures_startService (m : ManagerImpl) (n : String) (env : StartEnv) :
    issueFailures (m.startService n env).2.2 = 0 := by
  unfold ManagerImpl.startService
  cases h : m.lookupService n with
  | none => simp [issueFailures]
  | some sv => rcases start_events_shape sv env with he | he <;> simp [issueFailures, he]

theorem startAllFrom_issueTrace (sorted : List String) :
    ∀ (m : ManagerImpl) (envs : String → StartEnv),
      issueTrace (ManagerImpl.startAllFrom m sorted envs).2.2 =
        sorted.filter fun n => (m.getServiceConfig n).auto_start := by
  induction sorted with
  | nil =>
    intro m envs
    simp [ManagerImpl.startAllFrom, issueTrace]
  | cons n rest ih =>
    intro m envs
    by_cases h : (m.getServiceConfig n).auto_start
    · have hcfg := getServiceConfig_startService m n (envs n)
      simp only [ManagerImpl.startAllFrom, h, if_true, List.filter_cons_of_pos]
      simp only [issueTrace, List.filterMap_cons, List.filterMap_append]
      have h1 := issueTrace_startService m n (envs n)
      have h2 := ih (m.startService n (envs n)).2.1 envs
      simp only [issueTrace] at h1 h2
      rw [h1, h2, List.nil_append]
      exact congrArg (n :: ·) (List.filter_congr fun a _ => by rw [hcfg a])
    · simp only [ManagerImpl.startAllFrom]
      rw [if_neg h, List.filter_cons, if_neg h]
      exact ih m envs

theorem startAllFrom_ok (sorted : List String) :
    ∀ (m : ManagerImpl) (envs : String → StartEnv),
      (ManagerImpl.startAllFrom m sorted envs).1 = true ↔
        issueFailures (ManagerImpl.startAllFrom m sorted envs).2.2 = 0 := by
  induction sorted with
  | nil =>
    intro m envs
    simp [ManagerImpl.startAllFrom, issueFailures]
  | cons n rest ih =>
    intro m envs
    by_cases h : (m.getServiceConfig n).auto_start
    · simp only [ManagerImpl.startAllFrom, h, if_true]
      have h1 := issueFailures_startService m n (envs n)
      have h2 := ih (m.startService n (envs n)).2.1 envs
      simp only [issueFailures, List.countP_append, List.countP_cons] at h1 h2 ⊢
      cases hr : (m.startService n (envs n)).1 <;> simp [hr, h1, h2]
    · simp only [ManagerImpl.startAllFrom]
      rw [if_neg h]
      exact ih m envs

/-- C6 as amended: for every admissible `std::sort` output (a
permutation of the registered names with pairwise non-decreasing
priority — tie order among equal priorities unspecified),
`startAllServices` issues `start()` to exactly the auto_start services
of that sorted list, hence in non-decreasing priority order and, as a
set, to exactly the registered auto_start services; and it returns true
iff no attempted start failed. -/
theorem c6_start_all_order (m : ManagerImpl) (sorted : List String)
    (envs : String → StartEnv)
    (hperm : sorted.Perm m.getServiceNames)
    (hsorted : sorted.Pairwise fun a b => prio m a ≤ prio m b) :
    issueTrace (ManagerImpl.startAllFrom m sorted envs).2.2
        = sorted.filter (fun n => (m.getServiceConfig n).auto_start) ∧
    (issueTrace (ManagerImpl.startAllFrom m sorted envs).2.2).Pairwise
        (fun a b => prio m a ≤ prio m b) ∧
    (issueTrace (ManagerImpl.startAllFrom m sorted envs).2.2).Perm
        (m.getServiceNames.filter fun n => (m.getServiceConfig n).auto_start) ∧
    ((ManagerImpl.startAllFrom m sorted envs).1 = true ↔
      issueFailures (ManagerImpl.startAllFrom m sorted envs).2.2 = 0) := by
  refine ⟨startAllFrom_issueTrace sorted m envs, ?_, ?_, startAllFrom_ok sorted m envs⟩
  · rw [startAllFrom_issueTrace]
    exact hsorted.filter _
  · rw [startAllFrom_issueTrace]
    exact hperm.filter _

def c6CfgA : ServiceConfig :=
  { defaultServiceConfig with name := "alpha", priority := .Normal, auto_start := true }

def c6CfgB : ServiceConfig :=
  { defaultServiceConfig with name := "beta", priority := .Normal, auto_start := true }

/-- Registry with "alpha" registered before "beta", both auto_start and
of equal (Normal) priority. -/
def c6Mgr : ManagerImpl :=
  ⟨[("alpha", { mkService c6CfgA with hasStatusCb := true, hasErrorCb := true }),
    ("beta", { mkService c6CfgB with hasStatusCb := true, hasErrorCb := true })]⟩

def c6Envs : String → StartEnv :=
  fun _ => { forkOk := true, childPid := 11, aliveAfterGrace := true, now := 2 }

/-- C6 counterexample to the tie-break clause: `["beta", "alpha"]` is an
admissible `std::sort` output for the comparator (a permutation of the
registered names, pairwise non-decreasing priority, since the two
priorities are equal), and under it `startAllServices` issues the starts
in the order beta, alpha — not the registration/name order alpha, beta
that the claim's stable-sort clause promises. -/
theorem c6_counterexample :
    (["beta", "alpha"].Perm c6Mgr.getServiceNames ∧
      List.Pairwise (fun a b => prio c6Mgr a ≤ prio c6Mgr b) ["beta", "alpha"]) ∧
    c6Mgr.getServiceNames = ["alpha", "beta"] ∧
    issueTrace (ManagerImpl.startAllFrom c6Mgr ["beta", "alpha"] c6Envs).2.2
      = ["beta", "alpha"] ∧
    ["beta", "alpha"] ≠ ["alpha", "beta"] := by
  decide

/-- Witness for C6's amended statement on the concrete registry, sorted
order beta-then-alpha: the issue trace is exactly the auto_start filter
of the sorted list, and the aggregate result is success iff no issued
start failed. -/
theorem c6_witness :
    issueTrace (ManagerImpl.startAllFrom c6Mgr ["beta", "alpha"] c6Envs).2.2
        = ["beta", "alpha"].filter (fun n => (c6Mgr.getServiceConfig n).auto_start) ∧
    ((ManagerImpl.startAllFrom c6Mgr ["beta", "alpha"] c6Envs).1 = true ↔
      issueFailures (ManagerImpl.startAllFrom c6Mgr ["beta", "alpha"] c6Envs).2.2 = 0) := by
  have h := c6_start_all_order c6Mgr ["beta", "alpha"] c6Envs (by decide) (by decide)
  exact ⟨h.1, h.2.2.2⟩

end CloudFlow.System
